import Mathlib

/-!
Shallow embedding of the TrellisTemporal order-processing service.

The definitions below are translated from the repository sources:
  * app/db.py        — persistence gateway (orders / events / payments / shipments)
  * app/services.py  — activity bodies with their DB effects
  * app/activities.py — the thin activity wrappers (persist_address has its own SQL)
  * app/workflows.py — ShippingWorkflow and OrderWorkflow state machines

Machine-level conventions of the embedding:
  * SQL tables are association lists keyed by their primary key; `dbLookup`
    models a point `SELECT ... WHERE pk = :k`, `upsertAssoc` models
    `INSERT ... ON DUPLICATE KEY UPDATE`, `updateAssoc` models a plain
    `UPDATE ... WHERE pk = :k`.
  * JSON dict values are modelled by small typed structures; Python dict
    truthiness (`if address`, `if payload`) is modelled by emptiness checks.
  * The injected `flaky_call` of services.py either succeeds or makes the
    whole call fail; its outcome is an explicit Boolean parameter
    (`flakyFails`), since from a caller's point of view a raise and a
    timeout are both a failed activity attempt.
-/

/-- Semi-structured address value: a JSON object of string fields, as used by
the repository (for example `{line1:"123 Main", city:"Chicago"}`). -/
abbrev Address := List (String × String)

/-- One entry of an order's `items` list: a dict with optional `sku` and
`qty` keys (`i.get("qty", 1)` defaults a missing quantity to 1). -/
structure Item where
  sku : Option String
  qty : Option Int
deriving DecidableEq

/-- An order dict as passed between activities: may carry `order_id` or `id`
(services._order_id_from supports either key), plus `items` and `address`. -/
structure OrderDict where
  order_id : Option String
  id : Option String
  items : Option (List Item)
  address : Option Address
deriving DecidableEq

/-- services._order_id_from: `order.get("order_id") or order.get("id")`.
Python `or` falls through on falsy values, so an empty-string `order_id`
also falls back to the `id` key. -/
def _order_id_from (order : OrderDict) : Option String :=
  match order.order_id with
  | some s => if s = "" then order.id else some s
  | none => order.id

/-- Payloads of the `events.payload_json` column, typed by event kind
(the repository serializes these dicts with json.dumps). -/
inductive EventPayload
  | received (address : Option Address) (items : List Item)
  | validated (items : Option (List Item))
  | payment (payment_id : String) (amount : Int)
  | address (a : Address)
deriving DecidableEq

/-- Python truthiness of an event payload dict: every payload used by the
repository is a dict with at least one key, hence truthy, except the
`address_updated` payload which is the raw address dict and is falsy when
the address object is empty. -/
def eventPayloadTruthy : EventPayload → Bool
  | .received _ _ => true
  | .validated _ => true
  | .payment _ _ => true
  | .address a => !a.isEmpty

/-- A row of the `orders` table (id is the association-list key). -/
structure OrderRow where
  state : String
  address_json : Option Address
deriving DecidableEq

/-- A row of the append-only `events` table. -/
structure EventRow where
  order_id : String
  type : String
  payload_json : Option EventPayload
deriving DecidableEq

/-- A row of the `payments` table (payment_id is the association-list key). -/
structure PaymentRow where
  order_id : String
  status : String
  amount : Int
deriving DecidableEq

/-- A row of the append-only `shipments` table. -/
structure ShipmentRow where
  order_id : String
  status : String
deriving DecidableEq

/-- The relational store of app/db.py. -/
structure DB where
  orders : List (String × OrderRow)
  events : List EventRow
  payments : List (String × PaymentRow)
  shipments : List ShipmentRow
deriving DecidableEq

/-- Point lookup by primary key (`SELECT ... WHERE pk = :k`, first match). -/
def dbLookup {α : Type} : List (String × α) → String → Option α
  | [], _ => none
  | (k', v) :: rest, k => if k' = k then some v else dbLookup rest k

/-- Number of rows carrying a given key (used to state row uniqueness). -/
def keyCount {α : Type} : List (String × α) → String → Nat
  | [], _ => 0
  | (k', _) :: rest, k => (if k' = k then 1 else 0) + keyCount rest k

/-- MySQL `INSERT ... ON DUPLICATE KEY UPDATE`: update the row carrying the
key if one exists, otherwise append a fresh row. -/
def upsertAssoc {α : Type} : List (String × α) → String → (α → α) → α → List (String × α)
  | [], k, _, init => [(k, init)]
  | (k', v) :: rest, k, f, init =>
    if k' = k then (k', f v) :: rest else (k', v) :: upsertAssoc rest k f init

/-- Plain `UPDATE ... WHERE pk = :k`: rewrite matching rows, touch nothing
else, and insert nothing when the key is absent. -/
def updateAssoc {α : Type} : List (String × α) → String → (α → α) → List (String × α)
  | [], _, _ => []
  | (k', v) :: rest, k, f =>
    if k' = k then (k', f v) :: updateAssoc rest k f
    else (k', v) :: updateAssoc rest k f

/-- db.insert_event: unconditional append to `events`; the payload is stored
as NULL when Python-falsy (`json.dumps(payload) if payload else None`). -/
def insert_event (db : DB) (order_id : String) (type_ : String)
    (payload : Option EventPayload) : DB :=
  let stored : Option EventPayload :=
    match payload with
    | some p => if eventPayloadTruthy p then some p else none
    | none => none
  { db with events := db.events ++ [{ order_id := order_id, type := type_, payload_json := stored }] }

/-- db.upsert_order_state address parameter: `json.dumps(address) if address
else None` — an absent or empty (falsy) address dict becomes SQL NULL. -/
def addrParamOf (address : Option Address) : Option Address :=
  match address with
  | some a => if a = [] then none else some a
  | none => none

/-- db.upsert_order_state: `INSERT INTO orders ... ON DUPLICATE KEY UPDATE
state = VALUES(state), address_json = COALESCE(VALUES(address_json),
address_json)`. -/
def upsert_order_state (db : DB) (order_id : String) (state : String)
    (address : Option Address) : DB :=
  let addr := addrParamOf address
  { db with
    orders := upsertAssoc db.orders order_id
      (fun row =>
        { state := state,
          address_json := match addr with | some a => some a | none => row.address_json })
      { state := state, address_json := addr } }

/-- services.order_validated: runs flaky_call, raises `ValueError("No items
to validate")` on an empty or absent items list, otherwise upserts the order
to state `validated` and appends one `order_validated` event. A missing
order id would violate the NOT NULL primary key at the SQL layer, which is
likewise a failed call. -/
def order_validated (flakyFails : Bool) (order : OrderDict) (db : DB) :
    Except String (Bool × DB) :=
  if flakyFails then .error "Forced failure for testing"
  else if (order.items.getD []).isEmpty then .error "No items to validate"
  else
    match _order_id_from order with
    | none => .error "null order_id"
    | some oid =>
      let db := upsert_order_state db oid "validated" none
      let db := insert_event db oid "order_validated" (some (.validated order.items))
      .ok (true, db)

/-- services.payment_charged amount: `float(sum(int(i.get("qty", 1)) for i
in order.get("items", [])))`; quantities are integers so the amount is kept
as an integer. -/
def amountOf (order : OrderDict) : Int :=
  ((order.items.getD []).map (fun i => i.qty.getD 1)).sum

/-- services.payment_charged, fall-through branch: no `charged` row was
found under the lock, so upsert the payments row to `charged`, upsert the
order state, append the `payment_charged` event and return the amount. -/
def payment_charged_insert (order : OrderDict) (payment_id : String) (oid : String)
    (db : DB) : Except String ((String × Int) × DB) :=
  let amount := amountOf order
  let newRow : PaymentRow := { order_id := oid, status := "charged", amount := amount }
  let db := { db with payments := upsertAssoc db.payments payment_id (fun _ => newRow) newRow }
  let db := upsert_order_state db oid "payment_charged" none
  let db := insert_event db oid "payment_charged" (some (.payment payment_id amount))
  .ok (("charged", amount), db)

/-- services.payment_charged: after flaky_call, `SELECT status, amount FROM
payments WHERE payment_id = :pid FOR UPDATE`; an existing `charged` row is
an idempotent success returning the stored amount, otherwise the row is
upserted to `charged` with the computed amount. -/
def payment_charged (flakyFails : Bool) (order : OrderDict) (payment_id : String)
    (db : DB) : Except String ((String × Int) × DB) :=
  if flakyFails then .error "Forced failure for testing"
  else
    match _order_id_from order with
    | none => .error "null order_id"
    | some oid =>
      match dbLookup db.payments payment_id with
      | some row =>
        if row.status = "charged" then
          let db := insert_event db oid "payment_idempotent"
            (some (.payment payment_id row.amount))
          let db := upsert_order_state db oid "payment_charged" none
          .ok (("charged", row.amount), db)
        else payment_charged_insert order payment_id oid db
      | none => payment_charged_insert order payment_id oid db

/-- A sequence of n completed charge_payment calls with the same order dict
and the same payment_id, threading the store through; used to state the
idempotency property over call sequences. -/
def chargeCalls (order : OrderDict) (payment_id : String) :
    Nat → DB → (List (String × Int) × DB)
  | 0, db => ([], db)
  | n + 1, db =>
    match payment_charged false order payment_id db with
    | .ok (res, db') =>
      let (rs, dbf) := chargeCalls order payment_id n db'
      (res :: rs, dbf)
    | .error _ => ([], db)

/-- activities.persist_address: `UPDATE orders SET address_json = :addr
WHERE id = :oid` (no touch of `state`, no insert when the order is absent),
then one `address_updated` event; returns the string "address_updated". -/
def persist_address (db : DB) (order_id : String) (address : Address) :
    DB × String :=
  let db := { db with
    orders := updateAssoc db.orders order_id
      (fun row => { row with address_json := some address }) }
  let db := insert_event db order_id "address_updated" (some (.address address))
  (db, "address_updated")

/-!
Workflow layer (app/workflows.py).

The durable-execution engine is modelled by an explicit schedule: workflow
code is deterministic and suspends only at awaits (activity dispatch,
durable sleep, child start), so a run is a function of the start payload and
of what happens at each suspension point in order. `Sched` assigns to the
n-th await of the run the batch of signals that the engine buffered while it
was pending (handlers run when the workflow task resumes, before the
workflow coroutine continues), the outcome of the awaited operation
(success, or the stringified terminal failure once the per-activity retry
budget is spent), and the elapsed durable-clock time in milliseconds.
-/

/-- The four signal handlers of OrderWorkflow. -/
inductive Signal
  | cancelOrder (reason : String)
  | updateAddress (address : Address)
  | approve
  | dispatchFailed (reason : String)
deriving DecidableEq

/-- The _OrderState dataclass of app/workflows.py. -/
structure WfState where
  order_id : String
  payment_id : String
  address : Option Address
  items : Option (List Item)
  approved : Bool
  canceled : Bool
  cancel_reason : Option String
  current_step : String
  child_attempts : Nat
  last_error : Option String
  dispatch_failed_reason : Option String
deriving DecidableEq

/-- OrderWorkflow.__init__: `_OrderState(order_id="", payment_id="")` with
the dataclass defaults, so signals arriving before run() find a state. -/
def initOrderState : WfState :=
  { order_id := "", payment_id := "", address := none, items := none,
    approved := false, canceled := false, cancel_reason := none,
    current_step := "init", child_attempts := 0, last_error := none,
    dispatch_failed_reason := none }

/-- The signal handlers' effect on in-memory state (workflows.py lines
86-102). -/
def applySignal (s : WfState) : Signal → WfState
  | .cancelOrder reason => { s with canceled := true, cancel_reason := some reason }
  | .updateAddress address => { s with address := some address }
  | .approve => { s with approved := true }
  | .dispatchFailed reason => { s with dispatch_failed_reason := some reason }

/-- Deliver a buffered batch of signals in order. -/
def applySignals (s : WfState) (sigs : List Signal) : WfState :=
  sigs.foldl applySignal s

/-- The status() query projection (workflows.py lines 105-116). -/
structure StatusView where
  order_id : String
  step : String
  approved : Bool
  canceled : Bool
  cancel_reason : Option String
  child_attempts : Nat
  last_error : Option String
  dispatch_failed_reason : Option String
deriving DecidableEq

/-- OrderWorkflow.status: the query is a pure projection of in-memory state. -/
def statusQuery (s : WfState) : StatusView :=
  { order_id := s.order_id, step := s.current_step, approved := s.approved,
    canceled := s.canceled, cancel_reason := s.cancel_reason,
    child_attempts := s.child_attempts, last_error := s.last_error,
    dispatch_failed_reason := s.dispatch_failed_reason }

/-- Outcome of one awaited operation: success, or the stringified failure
that the engine re-raises into the workflow after retries are exhausted. -/
inductive ActOutcome
  | ok
  | fail (reason : String)
deriving DecidableEq

/-- What happened around one suspension point: signals buffered while it was
pending, its outcome, and how much durable-clock time it took (for sleeps,
`dur` is the delay beyond the requested 100 ms — a durable timer never fires
early). -/
structure AwaitEvent where
  signals : List Signal
  outcome : ActOutcome
  dur : Nat

/-- The environment of a run: the event at each suspension point, numbered
in the order the run reaches them. -/
abbrev Sched := Nat → AwaitEvent

/-- How a workflow execution ends: a return value, or a workflow execution
failure from an uncaught exception. -/
inductive WfOutcome
  | completed (value : String)
  | failed (error : String)
deriving DecidableEq

/-- Result of (a suffix of) an OrderWorkflow run: how it ended, the final
in-memory state, and the child workflows it started as (id, task queue)
pairs. -/
structure RunResult where
  outcome : WfOutcome
  final : WfState
  childStarts : List (String × String)
deriving DecidableEq

/-- workflows.py constant: the shipping child's task queue. -/
def SHIPPING_TASK_QUEUE : String := "shipping-tq"

/-- workflows.py constant: `MANUAL_REVIEW_WINDOW = timedelta(seconds=3)`,
in milliseconds. -/
def MANUAL_REVIEW_WINDOW : Nat := 3000

/-- The start payload of OrderWorkflow.run. -/
structure StartPayload where
  order_id : String
  payment_id : String
  address : Option Address
  items : Option (List Item)
deriving DecidableEq

/-- workflows.py line 134: `self.s = _OrderState(order_id=order_id,
payment_id=payment_id, address=address, items=items)` — run() builds a
fresh state object from the start payload (it does not merge into the state
the constructor created, so anything early signals wrote to that object is
discarded here). -/
def hydrate (p : StartPayload) : WfState :=
  { order_id := p.order_id, payment_id := p.payment_id, address := p.address,
    items := p.items, approved := false, canceled := false, cancel_reason := none,
    current_step := "init", child_attempts := 0, last_error := none,
    dispatch_failed_reason := none }

/-- services.order_received's return value on success (services.py lines
38-46): items default to one `{sku:"ABC", qty:1}` entry when absent (`is
None`, not merely empty), and the dict echoes order_id and address. -/
def receiveResult (p : StartPayload) : OrderDict :=
  { order_id := some p.order_id, id := none,
    items := some (match p.items with
      | none => [{ sku := some "ABC", qty := some 1 }]
      | some l => l),
    address := p.address }

/-- The mark_shipped step (workflows.py lines 230-241): one activity await,
then step `done` and return "shipped"; an activity failure is re-raised out
of run(). -/
def runMarkShipped (sched : Sched) (i : Nat) (s : WfState) : RunResult :=
  let s := { s with current_step := "mark_shipped" }
  let ev := sched i
  let s' := applySignals s ev.signals
  match ev.outcome with
  | .fail e => { outcome := .failed e, final := s', childStarts := [] }
  | .ok =>
    { outcome := .completed "shipped", final := { s' with current_step := "done" },
      childStarts := [] }

/-- The shipping-child retry loop (workflows.py lines 204-228): increment
`attempts`, mirror it into `child_attempts`, start child
`ship-<order_id>-<attempts>` on the shipping task queue; on success break to
mark_shipped, on failure record `shipping_failed: <e>` in last_error and
retry unless this was the second attempt, which is terminal "failed". The
loop body runs at most twice, so the structural fuel of 2 supplied by
`runCharge` makes the fuel-0 fallback unreachable. -/
def runShippingLoop (sched : Sched) : Nat → Nat → Nat → WfState → RunResult
  | 0, _, _, s => { outcome := .failed "shipping loop fuel exhausted", final := s, childStarts := [] }
  | fuel + 1, i, attempts, s =>
    let attempts' := attempts + 1
    let s := { s with child_attempts := attempts' }
    let childId := "ship-" ++ s.order_id ++ "-" ++ toString attempts'
    let ev := sched i
    let s' := applySignals s ev.signals
    match ev.outcome with
    | .ok =>
      let res := runMarkShipped sched (i + 1) s'
      { res with childStarts := (childId, SHIPPING_TASK_QUEUE) :: res.childStarts }
    | .fail e =>
      let s' := { s' with last_error := some ("shipping_failed: " ++ e) }
      if attempts' ≥ 2 then
        { outcome := .completed "failed", final := s',
          childStarts := [(childId, SHIPPING_TASK_QUEUE)] }
      else
        let res := runShippingLoop sched fuel (i + 1) attempts' s'
        { res with childStarts := (childId, SHIPPING_TASK_QUEUE) :: res.childStarts }

/-- The charge_payment step (workflows.py lines 189-200) followed by the
shipping phase: one activity await (failure re-raised), then step
`shipping_child` with the attempt counter at 0. -/
def runCharge (sched : Sched) (i : Nat) (s : WfState) (order : OrderDict) : RunResult :=
  let s := { s with current_step := "charge_payment" }
  let _ := order
  let ev := sched i
  let s' := applySignals s ev.signals
  match ev.outcome with
  | .fail e => { outcome := .failed e, final := s', childStarts := [] }
  | .ok => runShippingLoop sched 2 (i + 1) 0 { s' with current_step := "shipping_child" }

/-- The manual-review polling loop (workflows.py lines 180-181): while not
approved, not canceled and now() < deadline, sleep 100 ms. Each tick is one
suspension point; the durable timer advances the clock by at least 100 ms.
Structural fuel stands in for the durable clock's progress: the wrapper
passes `MANUAL_REVIEW_WINDOW` ticks, and since every tick advances the clock
by at least 100 ms the guard goes false long before the fuel could run out,
so the fuel-0 exit coincides with the guard exit. Returns the next await
index, the clock, and the state at loop exit. -/
def reviewLoop (sched : Sched) (deadline : Nat) : Nat → Nat → Nat → WfState → Nat × Nat × WfState
  | 0, i, now, s => (i, now, s)
  | fuel + 1, i, now, s =>
    if s.approved = false ∧ s.canceled = false ∧ now < deadline then
      reviewLoop sched deadline fuel (i + 1) (now + 100 + (sched i).dur)
        (applySignals s (sched i).signals)
    else (i, now, s)

/-- The manual-review gate (workflows.py lines 177-187): step
`awaiting_approval`, deadline = now() + 3 s, poll; afterwards canceled wins
("canceled"), then missing approval is the business timeout ("failed" with
last_error = "manual_review_timeout"), otherwise fall through to
charge_payment. -/
def runGate (sched : Sched) (i : Nat) (now : Nat) (s : WfState) (order : OrderDict) :
    RunResult :=
  let s := { s with current_step := "awaiting_approval" }
  let deadline := now + MANUAL_REVIEW_WINDOW
  match reviewLoop sched deadline MANUAL_REVIEW_WINDOW i now s with
  | (i', _, s') =>
    if s'.canceled then { outcome := .completed "canceled", final := s', childStarts := [] }
    else if s'.approved = false then
      { outcome := .completed "failed",
        final := { s' with last_error := some "manual_review_timeout" }, childStarts := [] }
    else runCharge sched i' s' order

/-- The optional persist_address step (workflows.py lines 165-175): executed
exactly when the in-memory address is non-null after validation; no
cancellation check follows it — control falls directly into the gate. -/
def runPersist (sched : Sched) (i : Nat) (now : Nat) (s : WfState) (order : OrderDict) :
    RunResult :=
  match s.address with
  | some _ =>
    let ev := sched i
    let s' := applySignals s ev.signals
    match ev.outcome with
    | .fail e => { outcome := .failed e, final := s', childStarts := [] }
    | .ok => runGate sched (i + 1) (now + ev.dur) s' order
  | none => runGate sched i now s order

/-- The validate_order step (workflows.py lines 152-162): one activity await
(failure re-raised), then the second cancellation checkpoint. -/
def runValidate (sched : Sched) (i : Nat) (now : Nat) (s : WfState) (order : OrderDict) :
    RunResult :=
  let s := { s with current_step := "validate_order" }
  let ev := sched i
  let s' := applySignals s ev.signals
  match ev.outcome with
  | .fail e => { outcome := .failed e, final := s', childStarts := [] }
  | .ok =>
    if s'.canceled then { outcome := .completed "canceled", final := s', childStarts := [] }
    else runPersist sched (i + 1) (now + ev.dur) s' order

/-- The receive_order step (workflows.py lines 136-150): one activity await
(failure re-raised), then the first cancellation checkpoint; on success the
activity's return value is the order dict used downstream. -/
def runReceive (sched : Sched) (i : Nat) (now : Nat) (s : WfState) (p : StartPayload) :
    RunResult :=
  let s := { s with current_step := "receive_order" }
  let ev := sched i
  let s' := applySignals s ev.signals
  match ev.outcome with
  | .fail e => { outcome := .failed e, final := s', childStarts := [] }
  | .ok =>
    if s'.canceled then { outcome := .completed "canceled", final := s', childStarts := [] }
    else runValidate sched (i + 1) (now + ev.dur) s' (receiveResult p)

/-- OrderWorkflow.run from its first line: hydrate the state from the start
payload (line 134), then walk the state machine. `now0` is the durable
clock at run start. -/
def orderWorkflowRun (p : StartPayload) (sched : Sched) (now0 : Nat) : RunResult :=
  runReceive sched 0 now0 (hydrate p) p

/-- A whole OrderWorkflow execution including signals the engine delivered
before run() started: the constructor state absorbs them (so the handlers do
not crash), but run() then rebuilds `self.s` from the payload alone, so the
run is that of `orderWorkflowRun` regardless of `preSignals`. -/
def orderWorkflowExec (preSignals : List Signal) (p : StartPayload) (sched : Sched)
    (now0 : Nat) : RunResult :=
  let _s0 := applySignals initOrderState preSignals
  orderWorkflowRun p sched now0

/-- How a child workflow execution ends. -/
inductive ChildOutcome
  | completed (value : String)
  | failed (error : String)
deriving DecidableEq

/-- ShippingWorkflow.run (workflows.py lines 24-59): prepare_package, then
dispatch_carrier; when dispatch fails terminally the child signals
`dispatch_failed` with the stringified reason to the workflow named by
`parent_workflow_id` and re-raises; on success it returns "dispatched".
Alongside the outcome it returns the external signals sent, as
(target workflow id, signal name, argument) triples. -/
def shippingWorkflowRun (order : OrderDict) (parent_workflow_id : String)
    (prep dispatch : ActOutcome) : ChildOutcome × List (String × String × String) :=
  let _ := order
  match prep with
  | .fail e => (.failed e, [])
  | .ok =>
    match dispatch with
    | .fail e => (.failed e, [(parent_workflow_id, "dispatch_failed", e)])
    | .ok => (.completed "dispatched", [])

/-!
Helper lemmas about the association-list tables and the signal handlers.
-/

/-- Does a signal batch contain a cancel_order signal? -/
def isCancelSig : Signal → Bool
  | .cancelOrder _ => true
  | _ => false

/-- Whether a batch of signals sets the canceled flag. -/
def hasCancel (sigs : List Signal) : Bool := sigs.any isCancelSig

/-- A signal that is neither approve nor cancel_order (it cannot end the
manual-review loop). -/
def quietSig : Signal → Bool
  | .approve => false
  | .cancelOrder _ => false
  | _ => true

/-- An await event delivering no approve and no cancel_order signal. -/
def quietEv (ev : AwaitEvent) : Bool := ev.signals.all quietSig

/-- Is this a dispatch_failed signal? -/
def isDispatchSig : Signal → Bool
  | .dispatchFailed _ => true
  | _ => false

/-!
Concrete stores, payloads and schedules used by witnesses and
counterexamples.
-/

/-- An empty relational store, for concrete instantiations. -/
def dbEmpty : DB := { orders := [], events := [], payments := [], shipments := [] }

/-- A concrete order dict with one item of quantity 2. -/
def orderQty2 : OrderDict :=
  { order_id := some "o-1", id := none,
    items := some [{ sku := some "ABC", qty := some 2 }], address := none }

/-- A concrete start payload: order o-1 paying with pay-1, one default-ish
item, no address. -/
def payloadOrd : StartPayload :=
  { order_id := "o-1", payment_id := "pay-1", address := none,
    items := some [{ sku := some "ABC", qty := some 1 }] }

/-- A schedule on which every await succeeds at once and no signal arrives. -/
def schedQuiet : Sched := fun _ => { signals := [], outcome := .ok, dur := 0 }

/-- A schedule on which every await succeeds and a cancel_order signal is
delivered during each await. -/
def schedCancelAll : Sched :=
  fun _ => { signals := [.cancelOrder "user_request"], outcome := .ok, dur := 0 }

/-- The schedule of the C1 counterexample: approve arrives during
validate_order (await 1), the cancel arrives while charge_payment is running
(await 2), and every await succeeds. -/
def schedC1 : Sched := fun j =>
  if j = 1 then { signals := [.approve], outcome := .ok, dur := 0 }
  else if j = 2 then { signals := [.cancelOrder "user_request"], outcome := .ok, dur := 0 }
  else { signals := [], outcome := .ok, dur := 0 }

/-- A schedule whose first two awaits fail (both shipping-child attempts). -/
def schedShipFailTwice : Sched := fun j =>
  if j = 0 then { signals := [], outcome := .fail "carrier down", dur := 0 }
  else if j = 1 then { signals := [], outcome := .fail "carrier down again", dur := 0 }
  else { signals := [], outcome := .ok, dur := 0 }

/-- A schedule whose first await fails and the rest succeed (first
shipping-child attempt fails, retry and mark_shipped succeed). -/
def schedShipFailOnce : Sched := fun j =>
  if j = 0 then { signals := [], outcome := .fail "carrier down", dur := 0 }
  else { signals := [], outcome := .ok, dur := 0 }

/-- One of each signal kind, delivered before run() starts. -/
def preSigsC2 : List Signal :=
  [.approve, .cancelOrder "user_request", .updateAddress [("line1", "5 Oak")],
   .dispatchFailed "lost"]

theorem applySignals_nil (s : WfState) : applySignals s [] = s := rfl

theorem applySignals_cons (s : WfState) (g : Signal) (gs : List Signal) :
    applySignals s (g :: gs) = applySignals (applySignal s g) gs := rfl

theorem applySignal_canceled (s : WfState) (g : Signal) :
    (applySignal s g).canceled = (s.canceled || isCancelSig g) := by
  cases g <;> simp [applySignal, isCancelSig]

theorem applySignals_canceled (sigs : List Signal) (s : WfState) :
    (applySignals s sigs).canceled = (s.canceled || hasCancel sigs) := by
  induction sigs generalizing s with
  | nil => simp [applySignals_nil, hasCancel]
  | cons g gs ih =>
    rw [applySignals_cons, ih, applySignal_canceled]
    simp [hasCancel, Bool.or_assoc]

theorem applySignal_order_id (s : WfState) (g : Signal) :
    (applySignal s g).order_id = s.order_id := by
  cases g <;> simp [applySignal]

theorem applySignals_order_id (sigs : List Signal) (s : WfState) :
    (applySignals s sigs).order_id = s.order_id := by
  induction sigs generalizing s with
  | nil => rfl
  | cons g gs ih => rw [applySignals_cons, ih, applySignal_order_id]

theorem applySignal_child_attempts (s : WfState) (g : Signal) :
    (applySignal s g).child_attempts = s.child_attempts := by
  cases g <;> simp [applySignal]

theorem applySignals_child_attempts (sigs : List Signal) (s : WfState) :
    (applySignals s sigs).child_attempts = s.child_attempts := by
  induction sigs generalizing s with
  | nil => rfl
  | cons g gs ih => rw [applySignals_cons, ih, applySignal_child_attempts]

theorem applySignal_last_error (s : WfState) (g : Signal) :
    (applySignal s g).last_error = s.last_error := by
  cases g <;> simp [applySignal]

theorem applySignals_last_error (sigs : List Signal) (s : WfState) :
    (applySignals s sigs).last_error = s.last_error := by
  induction sigs generalizing s with
  | nil => rfl
  | cons g gs ih => rw [applySignals_cons, ih, applySignal_last_error]

theorem applySignals_quiet (sigs : List Signal) (s : WfState)
    (h : sigs.all quietSig = true) :
    (applySignals s sigs).approved = s.approved ∧
    (applySignals s sigs).canceled = s.canceled := by
  induction sigs generalizing s with
  | nil => exact ⟨rfl, rfl⟩
  | cons g gs ih =>
    rw [List.all_cons, Bool.and_eq_true] at h
    rw [applySignals_cons]
    have hg : (applySignal s g).approved = s.approved ∧
        (applySignal s g).canceled = s.canceled := by
      cases g <;> simp_all [applySignal, quietSig]
    obtain ⟨ha, hc⟩ := ih (applySignal s g) h.2
    exact ⟨ha.trans hg.1, hc.trans hg.2⟩

theorem applySignals_dispatch_preserved (sigs : List Signal) (s : WfState)
    (h : sigs.all (fun g => !isDispatchSig g) = true) :
    (applySignals s sigs).dispatch_failed_reason = s.dispatch_failed_reason := by
  induction sigs generalizing s with
  | nil => rfl
  | cons g gs ih =>
    rw [List.all_cons, Bool.and_eq_true] at h
    rw [applySignals_cons, ih _ h.2]
    cases g <;> simp_all [applySignal, isDispatchSig]

theorem dbLookup_upsertAssoc_self {α : Type} (rows : List (String × α)) (k : String)
    (f : α → α) (init : α) :
    dbLookup (upsertAssoc rows k f init) k =
      some (match dbLookup rows k with | some v => f v | none => init) := by
  induction rows with
  | nil => simp [upsertAssoc, dbLookup]
  | cons r rest ih =>
    obtain ⟨k', v⟩ := r
    by_cases h : k' = k
    · simp [upsertAssoc, dbLookup, h]
    · simp [upsertAssoc, dbLookup, h, ih]

theorem dbLookup_updateAssoc {α : Type} (rows : List (String × α)) (k : String)
    (f : α → α) (k' : String) :
    dbLookup (updateAssoc rows k f) k' =
      if k' = k then (dbLookup rows k').map f else dbLookup rows k' := by
  induction rows with
  | nil => simp [updateAssoc, dbLookup]
  | cons r rest ih =>
    obtain ⟨k₀, v⟩ := r
    by_cases h0 : k₀ = k
    · subst h0
      by_cases h1 : k' = k₀
      · subst h1; simp [updateAssoc, dbLookup, ih]
      · simp [updateAssoc, dbLookup, Ne.symm h1, ih]
    · by_cases h1 : k' = k₀
      · subst h1
        simp [updateAssoc, dbLookup, h0]
      · simp [updateAssoc, dbLookup, h0, Ne.symm h1, ih]

/-!
Claim theorems.
-/

/-- Claim C6: in ShippingWorkflow.run, when dispatch_carrier fails terminally
after prepare_package succeeded, the child sends a signal named
dispatch_failed carrying the stringified failure reason to the workflow
identified by parent_workflow_id and then re-raises, so the run itself ends
failed with that reason; when dispatch_carrier succeeds the child sends no
signal and returns the string "dispatched". -/
theorem claim_C6 :
    ∀ (order : OrderDict) (parent_id e : String),
      shippingWorkflowRun order parent_id .ok (.fail e) =
        (.failed e, [(parent_id, "dispatch_failed", e)]) ∧
      shippingWorkflowRun order parent_id .ok .ok = (.completed "dispatched", []) := by
  intro order parent_id e
  exact ⟨rfl, rfl⟩

/-- Claim C7: upsert_order_state inserts a new order row or updates the
existing row's state to the given value with address_json set to
COALESCE(new, existing); in particular, when the supplied address is null an
existing stored address is left unchanged. -/
theorem claim_C7 :
    (∀ (db : DB) (oid st : String) (addr : Option Address),
      dbLookup (upsert_order_state db oid st addr).orders oid =
        some (match dbLookup db.orders oid with
          | some row =>
            { state := st,
              address_json := match addrParamOf addr with
                | some a => some a
                | none => row.address_json }
          | none => { state := st, address_json := addrParamOf addr })) ∧
    (∀ (db : DB) (oid st : String) (row : OrderRow),
      dbLookup db.orders oid = some row →
      dbLookup (upsert_order_state db oid st none).orders oid =
        some { state := st, address_json := row.address_json }) := by
  constructor
  · intro db oid st addr
    rw [upsert_order_state, dbLookup_upsertAssoc_self]
    cases dbLookup db.orders oid <;> rfl
  · intro db oid st row h
    simp only [upsert_order_state, dbLookup_upsertAssoc_self, h, addrParamOf]

/-- Claim C7 witness: upserting state "validated" with a null address over an
existing row keeps the stored Chicago address. -/
theorem claim_C7_witness :
    dbLookup (upsert_order_state
      { orders := [("o-1", { state := "received", address_json := some [("city", "Chicago")] })],
        events := [], payments := [], shipments := [] } "o-1" "validated" none).orders "o-1" =
      some { state := "validated", address_json := some [("city", "Chicago")] } :=
  claim_C7.2
    { orders := [("o-1", { state := "received", address_json := some [("city", "Chicago")] })],
      events := [], payments := [], shipments := [] }
    "o-1" "validated" { state := "received", address_json := some [("city", "Chicago")] } rfl

/-- Claim C9: persist_address replaces only the order's address_json column
(no row's state changes, no other order's row changes), appends exactly one
address_updated event, and returns "address_updated". -/
theorem claim_C9 :
    (∀ (db : DB) (oid : String) (a : Address) (k : String),
      ((dbLookup (persist_address db oid a).1.orders k).map fun r => r.state) =
        ((dbLookup db.orders k).map fun r => r.state)) ∧
    (∀ (db : DB) (oid : String) (a : Address),
      dbLookup (persist_address db oid a).1.orders oid =
        (dbLookup db.orders oid).map fun r => { r with address_json := some a }) ∧
    (∀ (db : DB) (oid : String) (a : Address) (k : String), k ≠ oid →
      dbLookup (persist_address db oid a).1.orders k = dbLookup db.orders k) ∧
    (∀ (db : DB) (oid : String) (a : Address),
      (persist_address db oid a).1.events =
        db.events ++ [{ order_id := oid, type := "address_updated",
                        payload_json := if a.isEmpty then none else some (.address a) }]) ∧
    (∀ (db : DB) (oid : String) (a : Address),
      (persist_address db oid a).2 = "address_updated") := by
  refine ⟨?_, ?_, ?_, ?_, ?_⟩
  · intro db oid a k
    simp only [persist_address, insert_event, dbLookup_updateAssoc]
    by_cases h : k = oid
    · simp only [h, Option.map_map]
      cases dbLookup db.orders oid <;> rfl
    · simp [h]
  · intro db oid a
    simp [persist_address, insert_event, dbLookup_updateAssoc]
  · intro db oid a k h
    simp [persist_address, insert_event, dbLookup_updateAssoc, h]
  · intro db oid a
    cases a with
    | nil => simp [persist_address, insert_event, eventPayloadTruthy]
    | cons x xs => simp [persist_address, insert_event, eventPayloadTruthy]
  · intro db oid a
    rfl

/-- Claim C9 witness: on a store with two orders, updating o-1's address
rewrites only that address, keeps both states, leaves o-2 alone, and appends
the single event. -/
theorem claim_C9_witness :
    dbLookup (persist_address
      { orders := [("o-1", { state := "validated", address_json := none }),
                   ("o-2", { state := "received", address_json := none })],
        events := [], payments := [], shipments := [] } "o-1" [("city", "NYC")]).1.orders "o-2" =
      some { state := "received", address_json := none } :=
  claim_C9.2.2.1
    { orders := [("o-1", { state := "validated", address_json := none }),
                 ("o-2", { state := "received", address_json := none })],
      events := [], payments := [], shipments := [] }
    "o-1" [("city", "NYC")] "o-2" (by decide)

/-!
Association-list lemmas for the payments table, and shared concrete inputs.
-/

theorem keyCount_zero_dbLookup {α : Type} (rows : List (String × α)) (k : String) :
    keyCount rows k = 0 → dbLookup rows k = none := by
  induction rows with
  | nil => intro _; rfl
  | cons r rest ih =>
    obtain ⟨k', v⟩ := r
    intro h
    by_cases hk : k' = k
    · simp [keyCount, hk] at h
    · simp only [keyCount, if_neg hk, Nat.zero_add] at h
      simp only [dbLookup, if_neg hk]
      exact ih h

theorem upsertAssoc_absent {α : Type} (rows : List (String × α)) (k : String)
    (f : α → α) (init : α) (h : dbLookup rows k = none) :
    upsertAssoc rows k f init = rows ++ [(k, init)] := by
  induction rows with
  | nil => rfl
  | cons r rest ih =>
    obtain ⟨k', v⟩ := r
    by_cases hk : k' = k
    · simp [dbLookup, hk] at h
    · simp only [dbLookup, if_neg hk] at h
      simp [upsertAssoc, hk, ih h]

theorem keyCount_append {α : Type} (xs ys : List (String × α)) (k : String) :
    keyCount (xs ++ ys) k = keyCount xs k + keyCount ys k := by
  induction xs with
  | nil => simp [keyCount]
  | cons r rest ih =>
    obtain ⟨k', v⟩ := r
    simp [keyCount, ih, Nat.add_assoc]

theorem dbLookup_append_of_none {α : Type} (xs ys : List (String × α)) (k : String)
    (h : dbLookup xs k = none) : dbLookup (xs ++ ys) k = dbLookup ys k := by
  induction xs with
  | nil => rfl
  | cons r rest ih =>
    obtain ⟨k', v⟩ := r
    by_cases hk : k' = k
    · simp [dbLookup, hk] at h
    · simp only [dbLookup, if_neg hk] at h
      simp [dbLookup, hk, ih h]

/-- A first charge_payment call against a store with no row for this
payment_id: it returns the deterministic amount and appends exactly the new
`charged` row to the payments table. -/
theorem payment_charged_fresh (order : OrderDict) (pid oid : String) (db : DB)
    (hid : _order_id_from order = some oid) (h : dbLookup db.payments pid = none) :
    ∃ db', payment_charged false order pid db = .ok (("charged", amountOf order), db') ∧
      db'.payments = db.payments ++ [(pid, { order_id := oid, status := "charged",
                                             amount := amountOf order })] := by
  simp only [payment_charged, Bool.false_eq_true, if_false, hid, h,
    payment_charged_insert]
  refine ⟨_, rfl, ?_⟩
  simp only [upsert_order_state, insert_event, upsertAssoc_absent _ _ _ _ h]

/-- A charge_payment call that finds an existing `charged` row: it returns
the stored amount and leaves the payments table untouched. -/
theorem payment_charged_idem (order : OrderDict) (pid oid o1 : String) (amt : Int)
    (db : DB) (hid : _order_id_from order = some oid)
    (h : dbLookup db.payments pid = some { order_id := o1, status := "charged", amount := amt }) :
    ∃ db', payment_charged false order pid db = .ok (("charged", amt), db') ∧
      db'.payments = db.payments := by
  simp only [payment_charged, Bool.false_eq_true, if_false, hid, h]
  refine ⟨_, rfl, ?_⟩
  simp only [upsert_order_state, insert_event]

/-- Every further charge_payment call against a store whose row for this
payment_id is already `charged` returns the stored amount and changes no
payments row, for any number of calls. -/
theorem chargeCalls_idem (order : OrderDict) (pid oid : String)
    (hid : _order_id_from order = some oid) :
    ∀ (m : Nat) (db : DB) (amt : Int) (o1 : String),
      dbLookup db.payments pid = some { order_id := o1, status := "charged", amount := amt } →
      (chargeCalls order pid m db).1 = List.replicate m ("charged", amt) ∧
      (chargeCalls order pid m db).2.payments = db.payments := by
  intro m
  induction m with
  | zero => intro db amt o1 _; exact ⟨rfl, rfl⟩
  | succ m ih =>
    intro db amt o1 h
    obtain ⟨db', heq, hpay⟩ := payment_charged_idem order pid oid o1 amt db hid h
    have hlook : dbLookup db'.payments pid =
        some { order_id := o1, status := "charged", amount := amt } := by
      rw [hpay]; exact h
    obtain ⟨ih1, ih2⟩ := ih db' amt o1 hlook
    constructor
    · simp [chargeCalls, heq, ih1, List.replicate_succ]
    · simp [chargeCalls, heq, ih2, hpay]

/-- Claim C3: starting from a store with no row for this payment_id, any
sequence of one or more completed charge_payment calls with the same
payment_id and the same item list leaves exactly one payments row, carrying
the deterministic amount and status `charged`, and every call (the later
ones taking the idempotent branch that does not touch the payments table)
returns the same {status:"charged", amount} as the first. -/
theorem claim_C3 :
    ∀ (order : OrderDict) (pid oid : String) (db : DB) (n : Nat),
      _order_id_from order = some oid →
      keyCount db.payments pid = 0 →
      (chargeCalls order pid (n + 1) db).1 =
        List.replicate (n + 1) ("charged", amountOf order) ∧
      keyCount (chargeCalls order pid (n + 1) db).2.payments pid = 1 ∧
      dbLookup (chargeCalls order pid (n + 1) db).2.payments pid =
        some { order_id := oid, status := "charged", amount := amountOf order } := by
  intro order pid oid db n hid hcount
  have hnone : dbLookup db.payments pid = none := keyCount_zero_dbLookup _ _ hcount
  obtain ⟨db₁, heq, hpay⟩ := payment_charged_fresh order pid oid db hid hnone
  have hlook1 : dbLookup db₁.payments pid =
      some { order_id := oid, status := "charged", amount := amountOf order } := by
    rw [hpay, dbLookup_append_of_none _ _ _ hnone]
    simp [dbLookup]
  obtain ⟨hres, hpays⟩ := chargeCalls_idem order pid oid hid n db₁ (amountOf order) oid hlook1
  refine ⟨?_, ?_, ?_⟩
  · simp [chargeCalls, heq, hres, List.replicate_succ]
  · simp only [chargeCalls, heq]
    rw [show (chargeCalls order pid n db₁).2.payments = db₁.payments from hpays, hpay,
      keyCount_append, hcount]
    simp [keyCount]
  · simp only [chargeCalls, heq]
    rw [show (chargeCalls order pid n db₁).2.payments = db₁.payments from hpays]
    exact hlook1

/-- Claim C3 witness: two completed charge_payment calls for payment pay-1
on a one-item order of quantity 2 against an empty store: both return
("charged", 2) and exactly one payments row remains, storing amount 2. -/
theorem claim_C3_witness :
    (chargeCalls orderQty2 "pay-1" 2 dbEmpty).1 =
      List.replicate 2 ("charged", amountOf orderQty2) ∧
    keyCount (chargeCalls orderQty2 "pay-1" 2 dbEmpty).2.payments "pay-1" = 1 ∧
    dbLookup (chargeCalls orderQty2 "pay-1" 2 dbEmpty).2.payments "pay-1" =
      some { order_id := "o-1", status := "charged", amount := amountOf orderQty2 } :=
  claim_C3 orderQty2 "pay-1" "o-1" dbEmpty 1 rfl rfl

/-- Claim C8: order_validated fails exactly on an empty or absent items list
(given the order id resolves and the failure injector let the call through);
with empty items every attempt fails regardless of the injector, so the
activity's bounded retries all fail and the failure is terminal for the
workflow, as the last conjunct shows at the workflow level; on success it
upserts the order's state to validated, appends exactly one order_validated
event, and returns true. -/
theorem claim_C8 :
    (∀ (order : OrderDict) (db : DB) (oid : String),
      _order_id_from order = some oid →
      (order_validated false order db = .error "No items to validate" ↔
        (order.items.getD []).isEmpty = true)) ∧
    (∀ (flakyFails : Bool) (order : OrderDict) (db : DB),
      (order.items.getD []).isEmpty = true →
      order_validated flakyFails order db =
        .error (if flakyFails then "Forced failure for testing" else "No items to validate")) ∧
    (∀ (order : OrderDict) (db : DB) (oid : String),
      _order_id_from order = some oid →
      (order.items.getD []).isEmpty = false →
      ∃ db', order_validated false order db = .ok (true, db') ∧
        ((dbLookup db'.orders oid).map fun r => r.state) = some "validated" ∧
        db'.events = db.events ++
          [{ order_id := oid, type := "order_validated",
             payload_json := some (.validated order.items) }] ∧
        db'.payments = db.payments) ∧
    (∀ (sched : Sched) (i now : Nat) (s : WfState) (order : OrderDict) (e : String),
      (sched i).outcome = .fail e →
      (runValidate sched i now s order).outcome = .failed e) := by
  refine ⟨?_, ?_, ?_, ?_⟩
  · intro order db oid hid
    by_cases hit : (order.items.getD []).isEmpty
    · simp [order_validated, hit]
    · simp [order_validated, hit, hid]
  · intro flakyFails order db hit
    cases flakyFails
    · simp [order_validated, hit]
    · simp [order_validated]
  · intro order db oid hid hit
    simp only [order_validated, Bool.false_eq_true, if_false, hit, hid]
    refine ⟨_, rfl, ?_, ?_, ?_⟩
    · simp only [insert_event, upsert_order_state, dbLookup_upsertAssoc_self]
      cases dbLookup db.orders oid <;> rfl
    · simp [insert_event, upsert_order_state, eventPayloadTruthy]
    · simp [insert_event, upsert_order_state]
  · intro sched i now s order e hfail
    simp [runValidate, hfail]

/-- Claim C8 witness: with empty items validation fails whether or not the
injector fires; with one item it succeeds, marks o-1 validated and appends
one event; a terminally failed validate activity fails the workflow run. -/
theorem claim_C8_witness :
    (order_validated false { order_id := some "o-1", id := none, items := some [], address := none }
        dbEmpty = .error "No items to validate" ↔
      ((OrderDict.mk (some "o-1") none (some []) none).items.getD []).isEmpty = true) ∧
    order_validated true { order_id := some "o-1", id := none, items := some [], address := none }
      dbEmpty = .error (if true then "Forced failure for testing" else "No items to validate") ∧
    (∃ db', order_validated false orderQty2 dbEmpty = .ok (true, db') ∧
      ((dbLookup db'.orders "o-1").map fun r => r.state) = some "validated" ∧
      db'.events = dbEmpty.events ++
        [{ order_id := "o-1", type := "order_validated",
           payload_json := some (.validated orderQty2.items) }] ∧
      db'.payments = dbEmpty.payments) ∧
    (runValidate (fun _ => { signals := [], outcome := .fail "boom", dur := 0 }) 0 0
        initOrderState orderQty2).outcome = .failed "boom" :=
  ⟨claim_C8.1 _ dbEmpty "o-1" rfl,
   claim_C8.2.1 true _ dbEmpty rfl,
   claim_C8.2.2.1 orderQty2 dbEmpty "o-1" rfl rfl,
   claim_C8.2.2.2 _ 0 0 initOrderState orderQty2 "boom" rfl⟩

/-!
Workflow-level helper lemmas: behaviour of the review loop and the shipping
loop.
-/

/-- A state that is already canceled exits the review loop immediately. -/
theorem reviewLoop_canceled_exit (sched : Sched) (deadline fuel i now : Nat)
    (s : WfState) (hc : s.canceled = true) :
    reviewLoop sched deadline fuel i now s = (i, now, s) := by
  cases fuel with
  | zero => rfl
  | succ f =>
    have hn : ¬(s.approved = false ∧ s.canceled = false ∧ now < deadline) := by
      rintro ⟨-, h2, -⟩
      rw [hc] at h2
      cases h2
    simp only [reviewLoop, if_neg hn]

/-- A state that is already approved exits the review loop immediately. -/
theorem reviewLoop_approved_exit (sched : Sched) (deadline fuel i now : Nat)
    (s : WfState) (ha : s.approved = true) :
    reviewLoop sched deadline fuel i now s = (i, now, s) := by
  cases fuel with
  | zero => rfl
  | succ f =>
    have hn : ¬(s.approved = false ∧ s.canceled = false ∧ now < deadline) := by
      rintro ⟨h1, -, -⟩
      rw [ha] at h1
      cases h1
    simp only [reviewLoop, if_neg hn]

/-- While only quiet signals (neither approve nor cancel_order) arrive, the
review loop leaves the approved and canceled flags as it found them. -/
theorem reviewLoop_quiet (sched : Sched) (deadline : Nat)
    (hq : ∀ j, quietEv (sched j) = true) :
    ∀ (fuel i now : Nat) (s : WfState),
      (reviewLoop sched deadline fuel i now s).2.2.approved = s.approved ∧
      (reviewLoop sched deadline fuel i now s).2.2.canceled = s.canceled := by
  intro fuel
  induction fuel with
  | zero => intro i now s; exact ⟨rfl, rfl⟩
  | succ f ih =>
    intro i now s
    by_cases hcond : s.approved = false ∧ s.canceled = false ∧ now < deadline
    · simp only [reviewLoop, if_pos hcond]
      obtain ⟨hap, hcp⟩ := applySignals_quiet (sched i).signals s (hq i)
      obtain ⟨iha, ihc⟩ := ih (i + 1) (now + 100 + (sched i).dur) (applySignals s (sched i).signals)
      exact ⟨iha.trans hap, ihc.trans hcp⟩
    · simp [reviewLoop, if_neg hcond]

/-- A cancel_order delivered during the first poll tick makes the loop exit
with the canceled flag set. -/
theorem reviewLoop_cancel_tick (sched : Sched) (deadline fuel i now : Nat)
    (s : WfState) (ha : s.approved = false) (hc : s.canceled = false)
    (hn : now < deadline) (hsig : hasCancel (sched i).signals = true) :
    (reviewLoop sched deadline (fuel + 1) i now s).2.2.canceled = true := by
  have hcanc : (applySignals s (sched i).signals).canceled = true := by
    rw [applySignals_canceled, hc, hsig]
    rfl
  have hcond : s.approved = false ∧ s.canceled = false ∧ now < deadline := ⟨ha, hc, hn⟩
  simp only [reviewLoop, if_pos hcond,
    reviewLoop_canceled_exit sched deadline fuel (i + 1) (now + 100 + (sched i).dur) _ hcanc]
  exact hcanc

/-- mark_shipped can only end the run as "shipped" or as a workflow failure,
never as "canceled". -/
theorem runMarkShipped_not_canceled (sched : Sched) (i : Nat) (s : WfState) :
    (runMarkShipped sched i s).outcome ≠ .completed "canceled" := by
  simp only [runMarkShipped]
  cases (sched i).outcome <;> simp

/-- The shipping loop can only end the run as "shipped", "failed" or a
workflow failure, never as "canceled": there is no cancellation checkpoint
in this phase. -/
theorem runShippingLoop_not_canceled (sched : Sched) :
    ∀ (fuel i attempts : Nat) (s : WfState),
      (runShippingLoop sched fuel i attempts s).outcome ≠ .completed "canceled" := by
  intro fuel
  induction fuel with
  | zero => intro i attempts s; simp [runShippingLoop]
  | succ f ih =>
    intro i attempts s
    simp only [runShippingLoop]
    cases (sched i).outcome with
    | ok => exact runMarkShipped_not_canceled sched (i + 1) _
    | fail e =>
      by_cases hA : attempts + 1 ≥ 2
      · simp [hA]
      · simp only [if_neg hA]
        exact ih (i + 1) (attempts + 1) _

/-- Claim C4: entering the shipping phase with the attempt counter at 0,
when both child attempts fail, the run starts exactly the children
ship-<order_id>-1 and ship-<order_id>-2, both on task queue shipping-tq;
the second failure is terminal with result "failed", child_attempts = 2 and
last_error recording the stringified second failure (the first failure's
record is overwritten by the second; signals delivered meanwhile cannot
touch either field). -/
theorem claim_C4 :
    ∀ (sched : Sched) (i : Nat) (s : WfState) (r₁ r₂ : String),
      (sched i).outcome = .fail r₁ →
      (sched (i + 1)).outcome = .fail r₂ →
      (runShippingLoop sched 2 i 0 s).childStarts =
        [("ship-" ++ s.order_id ++ "-" ++ toString 1, SHIPPING_TASK_QUEUE),
         ("ship-" ++ s.order_id ++ "-" ++ toString 2, SHIPPING_TASK_QUEUE)] ∧
      (runShippingLoop sched 2 i 0 s).outcome = .completed "failed" ∧
      (runShippingLoop sched 2 i 0 s).final.child_attempts = 2 ∧
      (runShippingLoop sched 2 i 0 s).final.last_error =
        some ("shipping_failed: " ++ r₂) := by
  intro sched i s r₁ r₂ h1 h2
  simp only [runShippingLoop, h1, h2, applySignals_order_id,
    applySignals_child_attempts, applySignals_last_error]
  norm_num

/-- Claim C10: entering the shipping phase with the attempt counter at 0,
when the first child attempt fails and the second succeeds (and mark_shipped
succeeds), the run still returns "shipped", yet last_error is never cleared
and keeps recording the first failure as "shipping_failed: <reason>", with
child_attempts = 2; a dispatch_failed_reason already set by the child's
back-signal likewise persists to the final state as long as no later
dispatch_failed signal overwrites it. A "shipped" result therefore does not
imply a null last_error. -/
theorem claim_C10 :
    ∀ (sched : Sched) (i : Nat) (s : WfState) (r : String),
      (sched i).outcome = .fail r →
      (sched (i + 1)).outcome = .ok →
      (sched (i + 2)).outcome = .ok →
      (runShippingLoop sched 2 i 0 s).outcome = .completed "shipped" ∧
      (runShippingLoop sched 2 i 0 s).final.last_error =
        some ("shipping_failed: " ++ r) ∧
      (runShippingLoop sched 2 i 0 s).final.child_attempts = 2 ∧
      (∀ w, s.dispatch_failed_reason = some w →
        ((sched i).signals.all fun g => !isDispatchSig g) = true →
        ((sched (i + 1)).signals.all fun g => !isDispatchSig g) = true →
        ((sched (i + 2)).signals.all fun g => !isDispatchSig g) = true →
        (runShippingLoop sched 2 i 0 s).final.dispatch_failed_reason = some w) := by
  intro sched i s r h1 h2 h3
  have h3' : (sched (i + 1 + 1)).outcome = .ok := by
    rw [show i + 1 + 1 = i + 2 from rfl]
    exact h3
  refine ⟨?_, ?_, ?_, ?_⟩
  · simp only [runShippingLoop, h1, h2, runMarkShipped, h3',
      applySignals_order_id, applySignals_child_attempts, applySignals_last_error]
    norm_num
  · simp only [runShippingLoop, h1, h2, runMarkShipped, h3',
      applySignals_order_id, applySignals_child_attempts, applySignals_last_error]
    norm_num
  · simp only [runShippingLoop, h1, h2, runMarkShipped, h3',
      applySignals_order_id, applySignals_child_attempts, applySignals_last_error]
    norm_num
  · intro w hw hq1 hq2 hq3
    have hq3' : ((sched (i + 1 + 1)).signals.all fun g => !isDispatchSig g) = true := by
      rw [show i + 1 + 1 = i + 2 from rfl]
      exact hq3
    have d1 : ∀ s', (applySignals s' (sched i).signals).dispatch_failed_reason =
        s'.dispatch_failed_reason :=
      fun s' => applySignals_dispatch_preserved _ s' hq1
    have d2 : ∀ s', (applySignals s' (sched (i + 1)).signals).dispatch_failed_reason =
        s'.dispatch_failed_reason :=
      fun s' => applySignals_dispatch_preserved _ s' hq2
    have d3 : ∀ s', (applySignals s' (sched (i + 1 + 1)).signals).dispatch_failed_reason =
        s'.dispatch_failed_reason :=
      fun s' => applySignals_dispatch_preserved _ s' hq3'
    simp only [runShippingLoop, h1, h2, runMarkShipped, h3', d1, d2, d3]
    norm_num
    exact hw

/-- Claim C5: the manual-review gate records deadline = now() + 3 s and
polls in 100 ms sleeps while neither approved nor canceled and now() is
before the deadline; when the deadline elapses with no approve (and no
cancel) delivered, the run returns "failed" with last_error =
"manual_review_timeout"; when the workflow is approved (and not canceled)
the gate falls through to the charge_payment phase. -/
theorem claim_C5 :
    (∀ (sched : Sched) (i now : Nat) (s : WfState) (order : OrderDict),
      (∀ j, quietEv (sched j) = true) →
      s.approved = false → s.canceled = false →
      (runGate sched i now s order).outcome = .completed "failed" ∧
      (runGate sched i now s order).final.last_error = some "manual_review_timeout") ∧
    (∀ (sched : Sched) (i now : Nat) (s : WfState) (order : OrderDict),
      s.approved = true → s.canceled = false →
      runGate sched i now s order =
        runCharge sched i { s with current_step := "awaiting_approval" } order) := by
  constructor
  · intro sched i now s order hq ha hc
    obtain ⟨hap, hcp⟩ := reviewLoop_quiet sched (now + MANUAL_REVIEW_WINDOW) hq
      MANUAL_REVIEW_WINDOW i now { s with current_step := "awaiting_approval" }
    rcases hL : reviewLoop sched (now + MANUAL_REVIEW_WINDOW) MANUAL_REVIEW_WINDOW i now
        { s with current_step := "awaiting_approval" } with ⟨i', now', s'⟩
    rw [hL] at hap hcp
    have hca : s'.canceled = false := by simpa [hc] using hcp
    have haa : s'.approved = false := by simpa [ha] using hap
    constructor <;> simp [runGate, hL, hca, haa]
  · intro sched i now s order ha hc
    have hex := reviewLoop_approved_exit sched (now + MANUAL_REVIEW_WINDOW)
      MANUAL_REVIEW_WINDOW i now { s with current_step := "awaiting_approval" } ha
    simp only [runGate]
    rw [hex]
    simp [ha, hc]

/-- Claim C1 counterexample: a cancel_order delivered while charge_payment
is in flight is merged into state right after that activity returns, yet the
run never acknowledges it: it proceeds through the shipping child and
mark_shipped and completes as "shipped" with the canceled flag still set —
so cancellation is not honored at the next inter-activity checkpoint, and
checkpoints do not exist after every activity. -/
theorem claim_C1_counterexample :
    (orderWorkflowRun payloadOrd schedC1 0).outcome = .completed "shipped" ∧
    (orderWorkflowRun payloadOrd schedC1 0).final.canceled = true ∧
    (orderWorkflowRun payloadOrd schedC1 0).final.cancel_reason = some "user_request" := by
  decide

/-- Claim C1 amended: cancellation checkpoints exist only after
receive_order returns, after validate_order returns, and at the
manual-review gate (on entry, each poll tick, and exit); a cancel observed
there ends the run as "canceled". From charge_payment onwards there is no
checkpoint: no run suffix starting at that phase can return "canceled", so a
cancel delivered after approval is never acknowledged. -/
theorem claim_C1_amended :
    (∀ (sched : Sched) (i now : Nat) (s : WfState) (p : StartPayload),
      (sched i).outcome = .ok →
      (s.canceled || hasCancel (sched i).signals) = true →
      (runReceive sched i now s p).outcome = .completed "canceled") ∧
    (∀ (sched : Sched) (i now : Nat) (s : WfState) (order : OrderDict),
      (sched i).outcome = .ok →
      (s.canceled || hasCancel (sched i).signals) = true →
      (runValidate sched i now s order).outcome = .completed "canceled") ∧
    (∀ (sched : Sched) (i now : Nat) (s : WfState) (order : OrderDict),
      s.canceled = true →
      (runGate sched i now s order).outcome = .completed "canceled") ∧
    (∀ (sched : Sched) (i now : Nat) (s : WfState) (order : OrderDict),
      s.approved = false → s.canceled = false →
      hasCancel (sched i).signals = true →
      (runGate sched i now s order).outcome = .completed "canceled") ∧
    (∀ (sched : Sched) (i : Nat) (s : WfState) (order : OrderDict),
      (runCharge sched i s order).outcome ≠ .completed "canceled") := by
  refine ⟨?_, ?_, ?_, ?_, ?_⟩
  · intro sched i now s p hok hcanc
    have hc : (applySignals { s with current_step := "receive_order" }
        (sched i).signals).canceled = true := by
      rw [applySignals_canceled]
      exact hcanc
    simp [runReceive, hok, hc]
  · intro sched i now s order hok hcanc
    have hc : (applySignals { s with current_step := "validate_order" }
        (sched i).signals).canceled = true := by
      rw [applySignals_canceled]
      exact hcanc
    simp [runValidate, hok, hc]
  · intro sched i now s order hc
    have hex := reviewLoop_canceled_exit sched (now + MANUAL_REVIEW_WINDOW)
      MANUAL_REVIEW_WINDOW i now { s with current_step := "awaiting_approval" } hc
    simp only [runGate]
    rw [hex]
    simp [hc]
  · intro sched i now s order ha hc hsig
    have hnow : now < now + MANUAL_REVIEW_WINDOW :=
      Nat.lt_add_of_pos_right (by decide)
    have ht := reviewLoop_cancel_tick sched (now + MANUAL_REVIEW_WINDOW) 2999 i now
      { s with current_step := "awaiting_approval" } ha hc hnow hsig
    rw [show (2999 + 1 : Nat) = MANUAL_REVIEW_WINDOW from rfl] at ht
    simp only [runGate]
    rcases hL : reviewLoop sched (now + MANUAL_REVIEW_WINDOW) MANUAL_REVIEW_WINDOW i now
        { s with current_step := "awaiting_approval" } with ⟨i', now', s'⟩
    rw [hL] at ht
    have ht' : s'.canceled = true := ht
    simp [ht']
  · intro sched i s order
    simp only [runCharge]
    cases h : (sched i).outcome with
    | ok => exact runShippingLoop_not_canceled sched 2 (i + 1) 0 _
    | fail e => simp

/-- Claim C2 divergence: early signals are absorbed without a crash by the
constructor-initialized state (first conjuncts), but run()'s hydration at
workflows.py line 134 rebuilds the state from the start payload alone, so
the whole run is independent of every signal delivered before it (second
conjunct) and none of the early signals' effects survive into the first
queryable state or the control flow: with approve and cancel both delivered
before start, the first in-run status shows approved = canceled = false and
the run times out in manual review as "failed" instead of returning
"canceled" (or proceeding as approved). -/
theorem claim_C2_code_bug :
    (statusQuery (applySignals initOrderState preSigsC2)).approved = true ∧
    (statusQuery (applySignals initOrderState preSigsC2)).canceled = true ∧
    (statusQuery (applySignals initOrderState preSigsC2)).cancel_reason =
      some "user_request" ∧
    (statusQuery (applySignals initOrderState preSigsC2)).dispatch_failed_reason =
      some "lost" ∧
    (applySignals initOrderState preSigsC2).address = some [("line1", "5 Oak")] ∧
    (∀ (pre pre' : List Signal) (p : StartPayload) (sched : Sched) (now0 : Nat),
      orderWorkflowExec pre p sched now0 = orderWorkflowExec pre' p sched now0) ∧
    statusQuery (hydrate payloadOrd) =
      { order_id := "o-1", step := "init", approved := false, canceled := false,
        cancel_reason := none, child_attempts := 0, last_error := none,
        dispatch_failed_reason := none } ∧
    (orderWorkflowExec preSigsC2 payloadOrd schedQuiet 0).outcome = .completed "failed" ∧
    (orderWorkflowExec preSigsC2 payloadOrd schedQuiet 0).final.last_error =
      some "manual_review_timeout" ∧
    (orderWorkflowExec preSigsC2 payloadOrd schedQuiet 0).final.canceled = false := by
  refine ⟨rfl, rfl, rfl, rfl, rfl, fun pre pre' p sched now0 => rfl, rfl, ?_, ?_, ?_⟩ <;>
    decide

/-- Claim C1 amended witness: the three checkpoint groups acknowledge a
cancel (delivered during receive_order, during validate_order, set before
the gate, or delivered at the first gate tick), and a canceled state
entering the charge phase still does not yield "canceled". -/
theorem claim_C1_amended_witness :
    (runReceive schedCancelAll 0 0 (hydrate payloadOrd) payloadOrd).outcome =
      .completed "canceled" ∧
    (runValidate schedCancelAll 0 0 (hydrate payloadOrd)
      (receiveResult payloadOrd)).outcome = .completed "canceled" ∧
    (runGate schedQuiet 0 0 { hydrate payloadOrd with canceled := true }
      (receiveResult payloadOrd)).outcome = .completed "canceled" ∧
    (runGate schedCancelAll 0 0 (hydrate payloadOrd)
      (receiveResult payloadOrd)).outcome = .completed "canceled" ∧
    (runCharge schedQuiet 0 { hydrate payloadOrd with canceled := true }
      (receiveResult payloadOrd)).outcome ≠ .completed "canceled" :=
  ⟨claim_C1_amended.1 schedCancelAll 0 0 (hydrate payloadOrd) payloadOrd rfl rfl,
   claim_C1_amended.2.1 schedCancelAll 0 0 (hydrate payloadOrd)
     (receiveResult payloadOrd) rfl rfl,
   claim_C1_amended.2.2.1 schedQuiet 0 0 { hydrate payloadOrd with canceled := true }
     (receiveResult payloadOrd) rfl,
   claim_C1_amended.2.2.2.1 schedCancelAll 0 0 (hydrate payloadOrd)
     (receiveResult payloadOrd) rfl rfl rfl,
   claim_C1_amended.2.2.2.2 schedQuiet 0 { hydrate payloadOrd with canceled := true }
     (receiveResult payloadOrd)⟩

/-- Claim C4 witness: with both child attempts failing, the run starts
ship-o-1-1 and ship-o-1-2 on shipping-tq and ends "failed" with
child_attempts = 2 and last_error recording the second failure. -/
theorem claim_C4_witness :
    (runShippingLoop schedShipFailTwice 2 0 0 (hydrate payloadOrd)).childStarts =
      [("ship-" ++ (hydrate payloadOrd).order_id ++ "-" ++ toString 1, SHIPPING_TASK_QUEUE),
       ("ship-" ++ (hydrate payloadOrd).order_id ++ "-" ++ toString 2, SHIPPING_TASK_QUEUE)] ∧
    (runShippingLoop schedShipFailTwice 2 0 0 (hydrate payloadOrd)).outcome =
      .completed "failed" ∧
    (runShippingLoop schedShipFailTwice 2 0 0 (hydrate payloadOrd)).final.child_attempts = 2 ∧
    (runShippingLoop schedShipFailTwice 2 0 0 (hydrate payloadOrd)).final.last_error =
      some ("shipping_failed: " ++ "carrier down again") :=
  claim_C4 schedShipFailTwice 0 (hydrate payloadOrd) "carrier down" "carrier down again"
    rfl rfl

/-- Claim C5 witness: with no signals at all the gate times out as "failed"
with last_error = manual_review_timeout, and an approved state falls through
to the charge phase. -/
theorem claim_C5_witness :
    (runGate schedQuiet 0 0 (hydrate payloadOrd) (receiveResult payloadOrd)).outcome =
      .completed "failed" ∧
    (runGate schedQuiet 0 0 (hydrate payloadOrd) (receiveResult payloadOrd)).final.last_error =
      some "manual_review_timeout" ∧
    runGate schedQuiet 0 0 { hydrate payloadOrd with approved := true }
        (receiveResult payloadOrd) =
      runCharge schedQuiet 0
        { { hydrate payloadOrd with approved := true } with
          current_step := "awaiting_approval" } (receiveResult payloadOrd) :=
  ⟨(claim_C5.1 schedQuiet 0 0 (hydrate payloadOrd) (receiveResult payloadOrd)
      (fun _ => rfl) rfl rfl).1,
   (claim_C5.1 schedQuiet 0 0 (hydrate payloadOrd) (receiveResult payloadOrd)
      (fun _ => rfl) rfl rfl).2,
   claim_C5.2 schedQuiet 0 0 { hydrate payloadOrd with approved := true }
     (receiveResult payloadOrd) rfl rfl⟩

/-- Claim C10 witness: first child attempt fails, retry and mark_shipped
succeed; the run ends "shipped" with last_error still recording the first
failure, child_attempts = 2, and the earlier-set dispatch_failed_reason
intact. -/
theorem claim_C10_witness :
    (runShippingLoop schedShipFailOnce 2 0 0
      { hydrate payloadOrd with dispatch_failed_reason := some "lost" }).outcome =
      .completed "shipped" ∧
    (runShippingLoop schedShipFailOnce 2 0 0
      { hydrate payloadOrd with dispatch_failed_reason := some "lost" }).final.last_error =
      some ("shipping_failed: " ++ "carrier down") ∧
    (runShippingLoop schedShipFailOnce 2 0 0
      { hydrate payloadOrd with dispatch_failed_reason := some "lost" }).final.child_attempts = 2 ∧
    (runShippingLoop schedShipFailOnce 2 0 0
      { hydrate payloadOrd with dispatch_failed_reason := some "lost" }).final.dispatch_failed_reason =
      some "lost" :=
  ⟨(claim_C10 schedShipFailOnce 0
      { hydrate payloadOrd with dispatch_failed_reason := some "lost" } "carrier down"
      rfl rfl rfl).1,
   (claim_C10 schedShipFailOnce 0
      { hydrate payloadOrd with dispatch_failed_reason := some "lost" } "carrier down"
      rfl rfl rfl).2.1,
   (claim_C10 schedShipFailOnce 0
      { hydrate payloadOrd with dispatch_failed_reason := some "lost" } "carrier down"
      rfl rfl rfl).2.2.1,
   (claim_C10 schedShipFailOnce 0
      { hydrate payloadOrd with dispatch_failed_reason := some "lost" } "carrier down"
      rfl rfl rfl).2.2.2 "lost" rfl rfl rfl rfl⟩
